import Mathlib

/-!
Verification of the command-encoding engine `OrconRamsesRFCommand`
(file `orcon_ramses_rf_command.py`).

The class is shallowly embedded: every method becomes a Lean function of
the object's fields (`remote`, `wtw`, `capacity_in_m3_per_hour`) and its
arguments.  Python exceptions become `Except PyErr`; Python `int` becomes
`ℤ`; Python `float` values are represented by the exact rational value of
the IEEE-754 binary64 double, and each arithmetic step that Python
performs in double precision is followed by `fl`, a round-to-nearest,
ties-to-even rounding of an exact rational to 53 significant bits.
(`fl` does not model overflow to infinity or subnormal underflow; all
quantities reached by the theorems below are ordinary normal doubles.)
-/

set_option maxRecDepth 8192

/-- Error values raised by the Python code: `ValueError msg` and
`ZeroDivisionError` (raised by `/` when the divisor is `0`). -/
inductive PyErr where
  | valueError (msg : String)
  | zeroDivisionError
deriving DecidableEq

instance {ε α : Type} [DecidableEq ε] [DecidableEq α] : DecidableEq (Except ε α) := fun x y =>
  match x, y with
  | .ok a, .ok b =>
    if h : a = b then .isTrue (by rw [h]) else .isFalse (fun hc => by cases hc; exact h rfl)
  | .error a, .error b =>
    if h : a = b then .isTrue (by rw [h]) else .isFalse (fun hc => by cases hc; exact h rfl)
  | .ok _, .error _ => .isFalse (fun hc => by cases hc)
  | .error _, .ok _ => .isFalse (fun hc => by cases hc)

/-- Lower-casing of one ASCII character, as `str.lower()` acts on the
ASCII range (the only characters the program compares against). -/
def pyCharLower (c : Char) : Char :=
  if 65 ≤ c.toNat ∧ c.toNat ≤ 90 then Char.ofNat (c.toNat + 32) else c

/-- Model of Python `str.lower()` (ASCII range). -/
def pyLower (s : String) : String := String.mk (s.data.map pyCharLower)

/-- Uppercase hexadecimal digit for `n < 16`, as produced by `format(x, "X")`. -/
def hexDigit (n : ℕ) : Char := if n < 10 then Char.ofNat (48 + n) else Char.ofNat (55 + n)

/-- Most-significant-first hexadecimal digits of `n`; the first argument is
recursion fuel (any fuel `≥ n` yields the digits of `n`). -/
def hexAux : ℕ → ℕ → List Char
  | 0, _ => []
  | f+1, n => if n = 0 then [] else hexAux f (n / 16) ++ [hexDigit (n % 16)]

/-- Uppercase hexadecimal rendering of a natural number, no padding. -/
def natToHex (n : ℕ) : String := if n = 0 then "0" else String.mk (hexAux n n)

/-- Left zero-padding to width `w`, as in Python format specs `0Nd` / `0NX`. -/
def zeroPad (w : ℕ) (s : String) : String :=
  if w ≤ s.length then s else String.mk (List.replicate (w - s.length) '0') ++ s

/-- Model of the Python f-string piece `{z:0wX}`: uppercase hex, left
zero-padded to `w` characters (a sign, if any, counts toward the width). -/
def pyHexUpper (z : ℤ) (w : ℕ) : String :=
  if z < 0 then "-" ++ zeroPad (w - 1) (natToHex (-z).toNat) else zeroPad w (natToHex z.toNat)

/-- Model of the Python f-string piece `{n:03d}` for a natural number. -/
def pyPad3 (n : ℕ) : String := zeroPad 3 (Nat.repr n)

/-- Fuelled binary logarithm; `log2fuel f n = Nat.log2 n` whenever `n ≤ f`. -/
def log2fuel : ℕ → ℕ → ℕ
  | 0, _ => 0
  | f+1, n => if n < 2 then 0 else log2fuel f (n / 2) + 1

/-- Binary logarithm (computable by kernel reduction; equal to `Nat.log2`). -/
def myLog2 (n : ℕ) : ℕ := log2fuel n n

/-- The rational `2 ^ k` for an integer exponent `k`. -/
def pow2 (k : ℤ) : ℚ := if 0 ≤ k then mkRat (2 ^ k.toNat) 1 else mkRat 1 (2 ^ (-k).toNat)

/-- Floor of a rational as an integer (equal to `Int.floor`). -/
def ratFloor (q : ℚ) : ℤ := Int.fdiv q.num (q.den : ℤ)

/-- The integer `⌊log₂ q⌋` for a positive rational `q`. -/
def floorLog2 (q : ℚ) : ℤ :=
  let a := q.num.toNat
  let b := q.den
  let L := myLog2 a
  let M := myLog2 b
  if b * 2 ^ L ≤ a * 2 ^ M then (L : ℤ) - M else (L : ℤ) - M - 1

/-- The rational one half. -/
def half : ℚ := mkRat 1 2

/-- Round a positive rational to 53 significant binary digits,
round-to-nearest with ties to even: the binary64 rounding step. -/
def roundPos (q : ℚ) : ℚ :=
  let e : ℤ := floorLog2 q - 52
  let scaled : ℚ := q * pow2 (-e)
  let n0 : ℤ := ratFloor scaled
  let r : ℚ := scaled - mkRat n0 1
  let n : ℤ :=
    if half < r then n0 + 1
    else if r < half then n0
    else if n0 % 2 = 0 then n0 else n0 + 1
  mkRat n 1 * pow2 e

/-- IEEE-754 binary64 rounding of an exact rational value (round to
nearest, ties to even), extended symmetrically to negative values. -/
def fl (q : ℚ) : ℚ :=
  if q.num < 0 then -roundPos (-q) else if q.num = 0 then q else roundPos q

/-- Model of Python `int(x)` on a float value: truncation toward zero. -/
def pyTrunc (q : ℚ) : ℤ :=
  if q.num < 0 then -(ratFloor (-q)) else ratFloor q

/-- The rational 100 (the float `100.0`, which is exact). -/
def hundred : ℚ := mkRat 100 1

/-- The engine object: the three fields assigned in `__init__`
(`self.remote`, `self.wtw`, `self.capacity_in_m3_per_hour`).  The
constructor performs no validation of any of them. -/
structure OrconRamsesRFCommand where
  remote : String
  wtw : String
  capacity_in_m3_per_hour : ℤ

/-- The f-string `"W --- {remote} {wtw} --:------ " + "2411 023 {payload}"`
shared by every parameter-write method. -/
def msg2411 (remote wtw payload : String) : String :=
  "W --- " ++ remote ++ " " ++ wtw ++ " --:------ " ++ ("2411 023 " ++ payload)

/-- The f-string `"I --- {remote} {wtw} --:------ " + "22F1 003 {payload}"`
shared by every mode-select method. -/
def msgMode (remote wtw payload : String) : String :=
  "I --- " ++ remote ++ " " ++ wtw ++ " --:------ " ++ ("22F1 003 " ++ payload)

/-- The f-string `"W --- {remote} {wtw} --:------ " + "22F7 003 {payload}"`
shared by the three bypass methods. -/
def msg22F7 (remote wtw payload : String) : String :=
  "W --- " ++ remote ++ " " ++ wtw ++ " --:------ " ++ ("22F7 003 " ++ payload)

namespace OrconRamsesRFCommand

/-- The `param_suffix` dictionary of `_fan_speed_payload` (keys 3..8). -/
def param_suffix (param : ℤ) : String :=
  if param = 3 then "00000000000000A0000000010032"
  else if param = 4 then "00000000000000A0000000010032"
  else if param = 5 then "00000000000000C8000000010032"
  else if param = 6 then "00000014000000C8000000010032"
  else if param = 7 then "00000000000000C8000000010032"
  else if param = 8 then "00000014000000C8000000010032"
  else ""

/-- The payload string built by `_fan_speed_payload`:
`prefix = f"0000{param_id:02X}000F000000{speed_hex}"` with
`param_id = param + 0x3C` and `speed_hex = f"{speed_percentage*2:02X}"`,
followed by `param_suffix[param]`. -/
def fan_speed_payload_hex (param speed_percentage : ℤ) : String :=
  "0000" ++ pyHexUpper (param + 0x3C) 2 ++ "000F000000"
    ++ pyHexUpper (speed_percentage * 2) 2 ++ param_suffix param

/-- Method `_fan_speed_payload` (despite its name it returns the whole
frame string, not only the payload). -/
def _fan_speed_payload (self : OrconRamsesRFCommand) (param speed_percentage : ℤ) :
    Except PyErr String :=
  if ¬(3 ≤ param ∧ param ≤ 8) then
    .error (.valueError "Parameter must be between 3 and 8.")
  else if ¬(1 ≤ speed_percentage ∧ speed_percentage ≤ 100) then
    .error (.valueError "Speed percentage must be between 1 and 100.")
  else
    .ok (msg2411 self.remote self.wtw (fan_speed_payload_hex param speed_percentage))

/-- Method `_calculate_percentage_from_m3_per_hour`:
`int((m3_per_hour / self.capacity_in_m3_per_hour) * 100)`, where `/` is
Python's float division (raising `ZeroDivisionError` on a zero divisor),
`* 100` is a float multiplication, and `int` truncates toward zero. -/
def _calculate_percentage_from_m3_per_hour (self : OrconRamsesRFCommand)
    (m3_per_hour : ℤ) : Except PyErr ℤ :=
  if self.capacity_in_m3_per_hour = 0 then .error .zeroDivisionError
  else .ok (pyTrunc (fl (fl (mkRat m3_per_hour 1 / mkRat self.capacity_in_m3_per_hour 1) * hundred)))

/-- Method `set_fan_speed`: lower-case the level name, convert the flow
to a percentage, then emit the two frames of the matching parameter pair. -/
def set_fan_speed (self : OrconRamsesRFCommand) (level_name : String) (m3_per_hour : ℤ) :
    Except PyErr (List String) := do
  let lvl := pyLower level_name
  let percentage ← self._calculate_percentage_from_m3_per_hour m3_per_hour
  if lvl = "low" then do
    let msg3 ← self._fan_speed_payload 3 percentage
    let msg4 ← self._fan_speed_payload 4 percentage
    return [msg3, msg4]
  else if lvl = "medium" then do
    let msg5 ← self._fan_speed_payload 5 percentage
    let msg6 ← self._fan_speed_payload 6 percentage
    return [msg5, msg6]
  else if lvl = "high" then do
    let msg7 ← self._fan_speed_payload 7 percentage
    let msg8 ← self._fan_speed_payload 8 percentage
    return [msg7, msg8]
  else
    .error (.valueError "level_name must be \x27low/medium/high.")

/-- Method `turn_fan_off`. -/
def turn_fan_off (self : OrconRamsesRFCommand) : List String :=
  [msgMode self.remote self.wtw "000007"]

/-- Method `set_to_low_mode`. -/
def set_to_low_mode (self : OrconRamsesRFCommand) : List String :=
  [msgMode self.remote self.wtw "000104"]

/-- Method `set_to_medium_mode`. -/
def set_to_medium_mode (self : OrconRamsesRFCommand) : List String :=
  [msgMode self.remote self.wtw "000204"]

/-- Method `set_to_high_mode`. -/
def set_to_high_mode (self : OrconRamsesRFCommand) : List String :=
  [msgMode self.remote self.wtw "000304"]

/-- Method `set_to_auto_mode`. -/
def set_to_auto_mode (self : OrconRamsesRFCommand) : List String :=
  [msgMode self.remote self.wtw "000407"]

/-- Method `set_to_auto2_mode`. -/
def set_to_auto2_mode (self : OrconRamsesRFCommand) : List String :=
  [msgMode self.remote self.wtw "000507"]

/-- Method `set_to_boost_mode`. -/
def set_to_boost_mode (self : OrconRamsesRFCommand) : List String :=
  [msgMode self.remote self.wtw "000607"]

/-- Method `disable_mode`. -/
def disable_mode (self : OrconRamsesRFCommand) : List String :=
  [msgMode self.remote self.wtw "000707"]

/-- Method `open_bypass`. -/
def open_bypass (self : OrconRamsesRFCommand) : List String :=
  [msg22F7 self.remote self.wtw "00C8EF"]

/-- Method `close_bypass`. -/
def close_bypass (self : OrconRamsesRFCommand) : List String :=
  [msg22F7 self.remote self.wtw "0000EF"]

/-- Method `automatic_bypass`. -/
def automatic_bypass (self : OrconRamsesRFCommand) : List String :=
  [msg22F7 self.remote self.wtw "00FFEF"]

/-- Payload of `set_absence_supply_fan_speed` (parameter 1, id `0x3D`). -/
def absence_supply_payload_hex (speed_percentage : ℤ) : String :=
  "0000" ++ pyHexUpper 0x3D 2 ++ "000F000000" ++ pyHexUpper (speed_percentage * 2) 2
    ++ "0000000000000050000000010032"

/-- Method `set_absence_supply_fan_speed` (parameter 1, domain 0..40). -/
def set_absence_supply_fan_speed (self : OrconRamsesRFCommand) (speed_percentage : ℤ) :
    Except PyErr (List String) :=
  if ¬(0 ≤ speed_percentage ∧ speed_percentage ≤ 40) then
    .error (.valueError "Speed percentage for absence supply fan must be between 0 and 40.")
  else
    .ok [msg2411 self.remote self.wtw (absence_supply_payload_hex speed_percentage)]

/-- Payload of `set_absence_exhaust_fan_speed` (parameter 2, id `0x3E`). -/
def absence_exhaust_payload_hex (speed_percentage : ℤ) : String :=
  "0000" ++ pyHexUpper 0x3E 2 ++ "000F000000" ++ pyHexUpper (speed_percentage * 2) 2
    ++ "0000000000000050000000010032"

/-- Method `set_absence_exhaust_fan_speed` (parameter 2, domain 0..40). -/
def set_absence_exhaust_fan_speed (self : OrconRamsesRFCommand) (speed_percentage : ℤ) :
    Except PyErr (List String) :=
  if ¬(0 ≤ speed_percentage ∧ speed_percentage ≤ 40) then
    .error (.valueError "Speed percentage for absence exhaust fan must be between 0 and 40.")
  else
    .ok [msg2411 self.remote self.wtw (absence_exhaust_payload_hex speed_percentage)]

/-- Payload of `set_boost_mode_speed` (parameter 9, id `0x95`). -/
def boost_payload_hex (speed_percentage : ℤ) : String :=
  "0000" ++ pyHexUpper 0x95 2 ++ "000F000000" ++ pyHexUpper (speed_percentage * 2) 2
    ++ "00000000000000C8000000010032"

/-- Method `set_boost_mode_speed` (parameter 9, domain 0..100). -/
def set_boost_mode_speed (self : OrconRamsesRFCommand) (speed_percentage : ℤ) :
    Except PyErr (List String) :=
  if ¬(0 ≤ speed_percentage ∧ speed_percentage ≤ 100) then
    .error (.valueError "Speed percentage for boost mode must be between 0 and 100.")
  else
    .ok [msg2411 self.remote self.wtw (boost_payload_hex speed_percentage)]

/-- Method `set_filter_replacement_time` (parameter 10): the `payload_map`
dictionary keyed on 90/120/150/180, any other key raising `ValueError`. -/
def set_filter_replacement_time (self : OrconRamsesRFCommand) (days : ℤ) :
    Except PyErr (List String) :=
  if days = 90 then
    .ok [msg2411 self.remote self.wtw "00003100100000005A00000000000007080000001E002C"]
  else if days = 120 then
    .ok [msg2411 self.remote self.wtw "00003100100000007800000000000007080000001E002C"]
  else if days = 150 then
    .ok [msg2411 self.remote self.wtw "00003100100000009600000000000007080000001E002C"]
  else if days = 180 then
    .ok [msg2411 self.remote self.wtw "0000310010000000B400000000000007080000001E002C"]
  else
    .error (.valueError "Days must be one of the following: 90, 120, 150, 180.")

/-- Payload of `set_sensor_sensitivity` (parameter 12, id `0x52`, value
scaled by 12; note the `0001` infix differs from the `000F` of others). -/
def sensor_payload_hex (sensitivity : ℤ) : String :=
  "0000" ++ pyHexUpper 0x52 2 ++ "0001000000" ++ pyHexUpper (sensitivity * 12) 2
    ++ "00000000000000FA000000010032"

/-- Method `set_sensor_sensitivity` (parameter 12, domain 0..15). -/
def set_sensor_sensitivity (self : OrconRamsesRFCommand) (sensitivity : ℤ) :
    Except PyErr (List String) :=
  if ¬(0 ≤ sensitivity ∧ sensitivity ≤ 15) then
    .error (.valueError "Sensor sensitivity must be between 0 and 15.")
  else
    .ok [msg2411 self.remote self.wtw (sensor_payload_hex sensitivity)]

/-- Method `set_humidity_scenario` (parameter 11): mode 0 or 1, each with
a fully precomputed frame. -/
def set_humidity_scenario (self : OrconRamsesRFCommand) (mode : ℤ) :
    Except PyErr (List String) :=
  if ¬(mode = 0 ∨ mode = 1) then
    .error (.valueError "Humidity scenario mode must be 0 (Midden) or 1 (Hoog).")
  else if mode = 0 then
    .ok [msg2411 self.remote self.wtw "00004E0000000000000000000000000001000000010000"]
  else
    .ok [msg2411 self.remote self.wtw "00004E0000000000010000000000000001000000010000"]

/-- Payload of `set_humidity_scenario_runtime` (parameter 13, id `0x54`,
minutes rendered directly). -/
def runtime_payload_hex (minutes : ℤ) : String :=
  "0000" ++ pyHexUpper 0x54 2 ++ "0000000000" ++ pyHexUpper minutes 2
    ++ "0000000F0000003C00000001002A"

/-- Method `set_humidity_scenario_runtime` (parameter 13, domain 15..60). -/
def set_humidity_scenario_runtime (self : OrconRamsesRFCommand) (minutes : ℤ) :
    Except PyErr (List String) :=
  if ¬(15 ≤ minutes ∧ minutes ≤ 60) then
    .error (.valueError "Humidity scenario runtime must be between 15 and 60 minutes.")
  else
    .ok [msg2411 self.remote self.wtw (runtime_payload_hex minutes)]

/-- Payload of `set_comfort_temperature` (parameter 14, id `0x75`):
`temperature_hex = int(temperature * 100)` computed in double precision,
rendered as `{:04X}` between the fixed prefix and suffix. -/
def comfort_payload_hex (temperature : ℚ) : String :=
  "00007500920000" ++ pyHexUpper (pyTrunc (fl (temperature * hundred))) 4
    ++ "0000000000000BB8000000010001"

/-- Method `set_comfort_temperature` (parameter 14, domain 0.0..30.0 °C);
the argument is the exact rational value of the caller's double. -/
def set_comfort_temperature (self : OrconRamsesRFCommand) (temperature : ℚ) :
    Except PyErr (List String) :=
  if ¬(0 ≤ temperature ∧ temperature ≤ 30) then
    .error (.valueError "Comfort temperature must be between 0.0 and 30.0°C.")
  else
    .ok [msg2411 self.remote self.wtw (comfort_payload_hex temperature)]

/-- Payload of `set_cooling_activation_temp` (parameter 15, id `0xA1`). -/
def cooling_payload_hex (temperature_celsius : ℤ) : String :=
  "0000" ++ pyHexUpper 0xA1 2 ++ "000F000000" ++ pyHexUpper (temperature_celsius * 2) 2
    ++ "000000000000003C000000010001"

/-- Method `set_cooling_activation_temp` (parameter 15, domain 0..30). -/
def set_cooling_activation_temp (self : OrconRamsesRFCommand) (temperature_celsius : ℤ) :
    Except PyErr (List String) :=
  if ¬(0 ≤ temperature_celsius ∧ temperature_celsius ≤ 30) then
    .error (.valueError "Activation temperature must be between 0 and 30 degrees Celsius.")
  else
    .ok [msg2411 self.remote self.wtw (cooling_payload_hex temperature_celsius)]

/-- Payload of `set_min_fan_speed_during_bypass` (parameter 16): the
identifier is the hard-coded literal `0079`, the value is scaled by 10
and rendered as `{:04X}`. -/
def min_bypass_payload_hex (speed_percentage : ℤ) : String :=
  "00007900110000" ++ pyHexUpper (speed_percentage * 10) 4
    ++ "00000000000003E8000000010032"

/-- Method `set_min_fan_speed_during_bypass` (parameter 16, domain 0..100). -/
def set_min_fan_speed_during_bypass (self : OrconRamsesRFCommand) (speed_percentage : ℤ) :
    Except PyErr (List String) :=
  if ¬(0 ≤ speed_percentage ∧ speed_percentage ≤ 100) then
    .error (.valueError "Speed percentage for minimum fan speed during bypass must be between 0 and 100.")
  else
    .ok [msg2411 self.remote self.wtw (min_bypass_payload_hex speed_percentage)]

/-- Method `set_bypass_fan_speed_regulation` (parameter 17): setting 3 or
4, each with a fixed payload. -/
def set_bypass_fan_speed_regulation (self : OrconRamsesRFCommand) (setting : ℤ) :
    Except PyErr (List String) :=
  if ¬(setting = 3 ∨ setting = 4) then
    .error (.valueError "Regulation setting for parameter 17 must be 3 (medium) or 4 (high).")
  else if setting = 3 then
    .ok [msg2411 self.remote self.wtw "0000E70000000000030000000300000005000000010000"]
  else
    .ok [msg2411 self.remote self.wtw "0000E70000000000040000000300000005000000010000"]

/-- Method `set_bypass_fan_speed_setting` (parameter 18): setting 0 or 1,
each with a fixed payload. -/
def set_bypass_fan_speed_setting (self : OrconRamsesRFCommand) (setting : ℤ) :
    Except PyErr (List String) :=
  if ¬(setting = 0 ∨ setting = 1) then
    .error (.valueError "Bypass fan speed setting for parameter 18 must be 0 or 1.")
  else if setting = 0 then
    .ok [msg2411 self.remote self.wtw "0000E80000000000000000000000000001000000010000"]
  else
    .ok [msg2411 self.remote self.wtw "0000E80000000000010000000000000001000000010000"]

end OrconRamsesRFCommand

/-- One call to a public operation of the class, with its arguments. -/
inductive ApiCall where
  | fanSpeed (level_name : String) (m3_per_hour : ℤ)
  | fanOff
  | lowMode
  | mediumMode
  | highMode
  | autoMode
  | auto2Mode
  | boostMode
  | disableMode
  | openBypass
  | closeBypass
  | autoBypass
  | absenceSupply (speed_percentage : ℤ)
  | absenceExhaust (speed_percentage : ℤ)
  | boostSpeed (speed_percentage : ℤ)
  | filterTime (days : ℤ)
  | sensorSens (sensitivity : ℤ)
  | humidity (mode : ℤ)
  | humidityRuntime (minutes : ℤ)
  | comfortTemp (temperature : ℚ)
  | coolingTemp (temperature_celsius : ℤ)
  | minBypassSpeed (speed_percentage : ℤ)
  | bypassReg (setting : ℤ)
  | bypassSetting (setting : ℤ)

/-- Dispatch a public call on an engine object, threading the object
state explicitly: no method body assigns to any `self` field, so the
translated state component is returned unchanged.  Methods that cannot
raise are wrapped in `.ok`. -/
def invoke (self : OrconRamsesRFCommand) :
    ApiCall → Except PyErr (List String) × OrconRamsesRFCommand
  | .fanSpeed lvl m3 => (self.set_fan_speed lvl m3, self)
  | .fanOff => (.ok self.turn_fan_off, self)
  | .lowMode => (.ok self.set_to_low_mode, self)
  | .mediumMode => (.ok self.set_to_medium_mode, self)
  | .highMode => (.ok self.set_to_high_mode, self)
  | .autoMode => (.ok self.set_to_auto_mode, self)
  | .auto2Mode => (.ok self.set_to_auto2_mode, self)
  | .boostMode => (.ok self.set_to_boost_mode, self)
  | .disableMode => (.ok self.disable_mode, self)
  | .openBypass => (.ok self.open_bypass, self)
  | .closeBypass => (.ok self.close_bypass, self)
  | .autoBypass => (.ok self.automatic_bypass, self)
  | .absenceSupply s => (self.set_absence_supply_fan_speed s, self)
  | .absenceExhaust s => (self.set_absence_exhaust_fan_speed s, self)
  | .boostSpeed s => (self.set_boost_mode_speed s, self)
  | .filterTime d => (self.set_filter_replacement_time d, self)
  | .sensorSens s => (self.set_sensor_sensitivity s, self)
  | .humidity m => (self.set_humidity_scenario m, self)
  | .humidityRuntime m => (self.set_humidity_scenario_runtime m, self)
  | .comfortTemp t => (self.set_comfort_temperature t, self)
  | .coolingTemp t => (self.set_cooling_activation_temp t, self)
  | .minBypassSpeed s => (self.set_min_fan_speed_during_bypass s, self)
  | .bypassReg s => (self.set_bypass_fan_speed_regulation s, self)
  | .bypassSetting s => (self.set_bypass_fan_speed_setting s, self)

/-- Well-formedness of a parameter-write frame for addresses
`remote`/`wtw`: some 46-hex-character (23-byte) payload, assembled by the
`2411` frame template, whose hard-coded `023` byte-count field agrees
with `len(payload)/2` rendered as a zero-padded 3-digit decimal. -/
def is2411Frame (remote wtw msg : String) : Prop :=
  ∃ p, p.length = 46 ∧ msg = msg2411 remote wtw p ∧ pyPad3 (p.length / 2) = "023"

/-- Well-formedness of a mode-select frame: a 6-hex-character (3-byte)
payload in the `22F1` template with a correct `003` byte-count field. -/
def isModeFrame (remote wtw msg : String) : Prop :=
  ∃ p, p.length = 6 ∧ msg = msgMode remote wtw p ∧ pyPad3 (p.length / 2) = "003"

/-- Well-formedness of a bypass frame: a 6-hex-character (3-byte)
payload in the `22F7` template with a correct `003` byte-count field. -/
def isBypassFrame (remote wtw msg : String) : Prop :=
  ∃ p, p.length = 6 ∧ msg = msg22F7 remote wtw p ∧ pyPad3 (p.length / 2) = "003"

/-! ### Bridge lemmas between the computable primitives and Mathlib -/

theorem log2fuel_eq_log2 : ∀ f n, n ≤ f → log2fuel f n = Nat.log2 n := by
  intro f
  induction f with
  | zero =>
    intro n hn
    have h : n = 0 := Nat.le_zero.mp hn
    subst h
    rw [Nat.log2]
    rfl
  | succ f ih =>
    intro n hn
    rw [log2fuel, Nat.log2]
    by_cases h2 : n < 2
    · have h : ¬ 2 ≤ n := by omega
      simp [h2, h]
    · have h2' : 2 ≤ n := by omega
      simp only [h2, if_false, h2', if_true]
      rw [ih (n / 2) (by omega)]
theorem myLog2_eq (n : ℕ) : myLog2 n = Nat.log2 n := log2fuel_eq_log2 n n le_rfl
theorem ratFloor_eq_floor (q : ℚ) : ratFloor q = ⌊q⌋ := by
  unfold ratFloor
  rw [Int.fdiv_eq_ediv _ (by positivity), Rat.floor_def]
theorem mkRat_int (n : ℤ) : mkRat n 1 = (n : ℚ) := by
  rw [Rat.mkRat_eq_div]
  simp
theorem pow2_eq_zpow (k : ℤ) : pow2 k = (2 : ℚ) ^ k := by
  unfold pow2
  split
  · rename_i h
    rw [mkRat_int]
    push_cast
    rw [← zpow_natCast]
    congr 1
    omega
  · rename_i h
    rw [Rat.mkRat_eq_div]
    push_cast
    rw [show ((2:ℚ) ^ (-k).toNat) = (2:ℚ) ^ (-k : ℤ) by rw [← zpow_natCast]; congr 1; omega]
    rw [zpow_neg]
    simp
theorem half_eq : half = 1/2 := by
  unfold half
  rw [Rat.mkRat_eq_div]
  norm_num
theorem hundred_eq : hundred = 100 := by
  unfold hundred
  rw [mkRat_int]
  norm_num
theorem two_zpow_floorLog2_le {q : ℚ} (hq : 0 < q) : (2 : ℚ) ^ floorLog2 q ≤ q := by
  have hnum : 0 < q.num := Rat.num_pos.mpr hq
  have ha : ((q.num.toNat : ℤ)) = q.num := Int.toNat_of_nonneg hnum.le
  have hane : q.num.toNat ≠ 0 := by omega
  have hb : 0 < q.den := q.pos
  have hqeq : q = ((q.num.toNat : ℚ)) / ((q.den : ℚ)) := by
    have hqq : ((q.num.toNat : ℚ)) = ((q.num : ℚ)) := by exact_mod_cast ha
    rw [hqq, Rat.num_div_den]
  unfold floorLog2
  simp only [myLog2_eq]
  set a := q.num.toNat with hadef
  set b := q.den with hbdef
  set L := Nat.log2 a with hLdef
  set M := Nat.log2 b with hMdef
  split
  · rename_i hcond
    rw [zpow_sub₀ (two_ne_zero), zpow_natCast, zpow_natCast]
    rw [hqeq, div_le_div_iff₀ (by positivity) (by positivity)]
    calc (2:ℚ) ^ L * b = b * 2 ^ L := by ring
    _ ≤ a * 2 ^ M := by exact_mod_cast hcond
    _ = (a:ℚ) * 2 ^ M := by norm_num
  · rename_i hcond
    have h1 : (2:ℕ) ^ L ≤ a := Nat.log2_self_le hane
    have h2 : b < 2 ^ (M + 1) := Nat.lt_log2_self
    have key : (2:ℕ) ^ L * b ≤ a * 2 ^ (M + 1) :=
      Nat.mul_le_mul h1 (Nat.le_of_lt h2)
    have hexp : (L : ℤ) - M - 1 = (L : ℤ) - ((M + 1 : ℕ) : ℤ) := by push_cast; ring
    rw [hexp, zpow_sub₀ (two_ne_zero), zpow_natCast, zpow_natCast]
    rw [hqeq, div_le_div_iff₀ (by positivity) (by positivity)]
    calc (2:ℚ) ^ L * b ≤ (a : ℚ) * 2 ^ (M + 1) := by exact_mod_cast key
    _ = (a:ℚ) * 2 ^ (M + 1) := rfl
theorem roundPos_bounds {q : ℚ} (hq : 0 < q) :
    0 ≤ roundPos q ∧ roundPos q ≤ 2 * q := by
  unfold roundPos
  simp only [pow2_eq_zpow, mkRat_int, ratFloor_eq_floor]
  set e : ℤ := floorLog2 q - 52 with hedef
  set scaled : ℚ := q * (2:ℚ) ^ (-e) with hscaled
  have hsc_pos : 0 < scaled := by
    rw [hscaled]; positivity
  set n0 : ℤ := ⌊scaled⌋ with hn0
  have hn0_nonneg : 0 ≤ n0 := Int.floor_nonneg.mpr hsc_pos.le
  have hn0_le : (n0 : ℚ) ≤ scaled := Int.floor_le scaled
  set n : ℤ :=
    if half < scaled - (n0 : ℚ) then n0 + 1
    else if scaled - (n0 : ℚ) < half then n0
    else if n0 % 2 = 0 then n0 else n0 + 1 with hndef
  have hn_lb : n0 ≤ n := by
    rw [hndef]
    split
    · omega
    · split
      · omega
      · split
        · omega
        · omega
  have hn_ub : n ≤ n0 + 1 := by
    rw [hndef]
    split
    · omega
    · split
      · omega
      · split
        · omega
        · omega
  have hpow_pos : (0:ℚ) < (2:ℚ) ^ e := zpow_pos (by norm_num) e
  constructor
  · have : (0:ℚ) ≤ (n : ℚ) := by exact_mod_cast le_trans hn0_nonneg hn_lb
    positivity
  · have hnq : (n : ℚ) ≤ scaled + 1 := by
      have : ((n0 + 1 : ℤ) : ℚ) ≤ scaled + 1 := by push_cast; linarith
      calc (n : ℚ) ≤ ((n0 + 1 : ℤ) : ℚ) := by exact_mod_cast hn_ub
      _ ≤ scaled + 1 := this
    have hmain : (n : ℚ) * (2:ℚ) ^ e ≤ (scaled + 1) * (2:ℚ) ^ e :=
      mul_le_mul_of_nonneg_right hnq hpow_pos.le
    have hsplit : (scaled + 1) * (2:ℚ) ^ e = q + (2:ℚ) ^ e := by
      rw [hscaled]
      have : (2:ℚ) ^ (-e) * (2:ℚ) ^ e = 1 := by
        rw [← zpow_add₀ (two_ne_zero : (2:ℚ) ≠ 0)]
        simp
      calc (q * (2:ℚ) ^ (-e) + 1) * (2:ℚ) ^ e
          = q * ((2:ℚ) ^ (-e) * (2:ℚ) ^ e) + (2:ℚ) ^ e := by ring
      _ = q + (2:ℚ) ^ e := by rw [this]; ring
    have hpe : (2:ℚ) ^ e ≤ q := by
      calc (2:ℚ) ^ e ≤ (2:ℚ) ^ (floorLog2 q) := by
            apply (zpow_le_zpow_iff_right₀ (by norm_num : (1:ℚ) < 2)).mpr
            omega
      _ ≤ q := two_zpow_floorLog2_le hq
    linarith
theorem fl_nonneg {q : ℚ} (h : 0 ≤ q) : 0 ≤ fl q := by
  unfold fl
  have h1 : ¬ q.num < 0 := by
    have := Rat.num_nonneg.mpr h
    omega
  rw [if_neg h1]
  split
  · exact h
  · rename_i h2
    have hpos : 0 < q := lt_of_le_of_ne h (by
      intro hq
      exact h2 (by rw [← hq]; rfl))
    exact (roundPos_bounds hpos).1
theorem fl_le_two_mul {q : ℚ} (h : 0 ≤ q) : fl q ≤ 2 * q := by
  unfold fl
  have h1 : ¬ q.num < 0 := by
    have := Rat.num_nonneg.mpr h
    omega
  rw [if_neg h1]
  split
  · linarith
  · rename_i h2
    have hpos : 0 < q := lt_of_le_of_ne h (by
      intro hq
      exact h2 (by rw [← hq]; rfl))
    exact (roundPos_bounds hpos).2
theorem pyTrunc_eq_floor {q : ℚ} (h : 0 ≤ q) : pyTrunc q = ⌊q⌋ := by
  unfold pyTrunc
  have h1 : ¬ q.num < 0 := by
    have := Rat.num_nonneg.mpr h
    omega
  rw [if_neg h1, ratFloor_eq_floor]
theorem pyTrunc_nonneg {q : ℚ} (h : 0 ≤ q) : 0 ≤ pyTrunc q := by
  rw [pyTrunc_eq_floor h]
  exact Int.floor_nonneg.mpr h
theorem pyTrunc_le {q : ℚ} (h : 0 ≤ q) : ((pyTrunc q : ℚ)) ≤ q := by
  rw [pyTrunc_eq_floor h]
  exact Int.floor_le q
theorem hexAux_length_le : ∀ f n k, n < 16 ^ k → (hexAux f n).length ≤ k := by
  intro f
  induction f with
  | zero =>
    intro n k _
    simp [hexAux]
  | succ f ih =>
    intro n k hn
    rw [hexAux]
    split
    · simp
    · rename_i hne
      have hk : k ≠ 0 := by
        intro h0
        rw [h0, pow_zero] at hn
        omega
      obtain ⟨k', rfl⟩ : ∃ k', k = k' + 1 := ⟨k - 1, by omega⟩
      have hdiv : n / 16 < 16 ^ k' := by
        apply Nat.div_lt_of_lt_mul
        calc n < 16 ^ (k' + 1) := hn
        _ = 16 * 16 ^ k' := by ring
      have := ih (n / 16) k' hdiv
      simp only [List.length_append, List.length_cons, List.length_nil]
      omega
theorem natToHex_length_le {n w : ℕ} (hw : 1 ≤ w) (hn : n < 16 ^ w) :
    (natToHex n).length ≤ w := by
  unfold natToHex
  split
  · simpa using hw
  · exact hexAux_length_le n n w hn
theorem zeroPad_length (w : ℕ) (s : String) :
    (zeroPad w s).length = max w s.length := by
  unfold zeroPad
  split
  · rename_i h
    omega
  · rename_i h
    rw [String.length_append]
    have : (String.mk (List.replicate (w - s.length) '0')).length = w - s.length := by
      show (List.replicate (w - s.length) '0').length = _
      simp
    omega
theorem pyHexUpper_length {z : ℤ} {w : ℕ} (h0 : 0 ≤ z) (hw : 1 ≤ w)
    (hz : z < 16 ^ w) : (pyHexUpper z w).length = w := by
  unfold pyHexUpper
  rw [if_neg (by omega)]
  rw [zeroPad_length]
  have hzn : z.toNat < 16 ^ w := by
    have : ((16:ℤ) ^ w) = ((16 ^ w : ℕ) : ℤ) := by push_cast; ring
    omega
  have := natToHex_length_le hw hzn
  omega

/-! ### Shape lemmas for each setter -/

namespace OrconRamsesRFCommand

theorem fan_payload_ok {self : OrconRamsesRFCommand} {param speed : ℤ} {msg : String}
    (h : self._fan_speed_payload param speed = .ok msg) :
    (3 ≤ param ∧ param ≤ 8) ∧ (1 ≤ speed ∧ speed ≤ 100) ∧
      msg = msg2411 self.remote self.wtw (fan_speed_payload_hex param speed) := by
  unfold _fan_speed_payload at h
  split at h
  · cases h
  · split at h
    · cases h
    · rename_i h1 h2
      cases h
      exact ⟨not_not.mp h1, not_not.mp h2, rfl⟩

theorem param_suffix_length {param : ℤ} (h3 : 3 ≤ param) (h8 : param ≤ 8) :
    (param_suffix param).length = 28 := by
  unfold param_suffix
  split_ifs <;> first | rfl | omega

theorem fan_speed_payload_hex_length {param speed : ℤ} (h3 : 3 ≤ param) (h8 : param ≤ 8)
    (h1 : 1 ≤ speed) (h100 : speed ≤ 100) :
    (fan_speed_payload_hex param speed).length = 46 := by
  have h256 : (16:ℤ) ^ 2 = 256 := by norm_num
  unfold fan_speed_payload_hex
  rw [String.length_append, String.length_append, String.length_append,
    String.length_append]
  rw [pyHexUpper_length (by omega) (by norm_num) (by omega)]
  rw [pyHexUpper_length (by omega) (by norm_num) (by omega)]
  rw [param_suffix_length h3 h8]
  rfl

theorem set_fan_speed_frames {self : OrconRamsesRFCommand} {lvl : String} {m3 : ℤ}
    {fr : List String} (h : self.set_fan_speed lvl m3 = .ok fr) :
    ∃ p1 p2, p1.length = 46 ∧ p2.length = 46 ∧
      fr = [msg2411 self.remote self.wtw p1, msg2411 self.remote self.wtw p2] := by
  unfold set_fan_speed at h
  cases hp : self._calculate_percentage_from_m3_per_hour m3 with
  | error e =>
    rw [hp] at h
    simp only [bind, Except.bind] at h
    exact Except.noConfusion h
  | ok pct =>
    rw [hp] at h
    simp only [bind, Except.bind] at h
    split at h
    · cases h3 : self._fan_speed_payload 3 pct with
      | error e => rw [h3] at h; cases h
      | ok m1 =>
        rw [h3] at h
        cases h4 : self._fan_speed_payload 4 pct with
        | error e => rw [h4] at h; cases h
        | ok m2 =>
          rw [h4] at h
          simp only [pure, Except.pure] at h
          cases h
          obtain ⟨hp1, hs1, hm1⟩ := fan_payload_ok h3
          obtain ⟨hp2, hs2, hm2⟩ := fan_payload_ok h4
          exact ⟨_, _, fan_speed_payload_hex_length hp1.1 hp1.2 hs1.1 hs1.2,
            fan_speed_payload_hex_length hp2.1 hp2.2 hs2.1 hs2.2, by rw [hm1, hm2]⟩
    · split at h
      · cases h5 : self._fan_speed_payload 5 pct with
        | error e => rw [h5] at h; cases h
        | ok m1 =>
          rw [h5] at h
          cases h6 : self._fan_speed_payload 6 pct with
          | error e => rw [h6] at h; cases h
          | ok m2 =>
            rw [h6] at h
            simp only [pure, Except.pure] at h
            cases h
            obtain ⟨hp1, hs1, hm1⟩ := fan_payload_ok h5
            obtain ⟨hp2, hs2, hm2⟩ := fan_payload_ok h6
            exact ⟨_, _, fan_speed_payload_hex_length hp1.1 hp1.2 hs1.1 hs1.2,
              fan_speed_payload_hex_length hp2.1 hp2.2 hs2.1 hs2.2, by rw [hm1, hm2]⟩
      · split at h
        · cases h7 : self._fan_speed_payload 7 pct with
          | error e => rw [h7] at h; cases h
          | ok m1 =>
            rw [h7] at h
            cases h8 : self._fan_speed_payload 8 pct with
            | error e => rw [h8] at h; cases h
            | ok m2 =>
              rw [h8] at h
              simp only [pure, Except.pure] at h
              cases h
              obtain ⟨hp1, hs1, hm1⟩ := fan_payload_ok h7
              obtain ⟨hp2, hs2, hm2⟩ := fan_payload_ok h8
              exact ⟨_, _, fan_speed_payload_hex_length hp1.1 hp1.2 hs1.1 hs1.2,
                fan_speed_payload_hex_length hp2.1 hp2.2 hs2.1 hs2.2, by rw [hm1, hm2]⟩
        · cases h

theorem absence_supply_payload_hex_length {s : ℤ} (h0 : 0 ≤ s) (h40 : s ≤ 40) :
    (absence_supply_payload_hex s).length = 46 := by
  have h256 : (16:ℤ) ^ 2 = 256 := by norm_num
  unfold absence_supply_payload_hex
  rw [String.length_append, String.length_append, String.length_append,
    String.length_append]
  rw [pyHexUpper_length (by omega) (by norm_num) (by omega)]
  rw [pyHexUpper_length (by omega) (by norm_num) (by omega)]
  rfl

theorem set_absence_supply_frames {self : OrconRamsesRFCommand} {s : ℤ} {fr : List String}
    (h : self.set_absence_supply_fan_speed s = .ok fr) :
    ∃ p, p.length = 46 ∧ fr = [msg2411 self.remote self.wtw p] := by
  unfold set_absence_supply_fan_speed at h
  split at h
  · cases h
  · rename_i hc
    cases h
    have hs := not_not.mp hc
    exact ⟨_, absence_supply_payload_hex_length hs.1 hs.2, rfl⟩

theorem absence_exhaust_payload_hex_length {s : ℤ} (h0 : 0 ≤ s) (h40 : s ≤ 40) :
    (absence_exhaust_payload_hex s).length = 46 := by
  have h256 : (16:ℤ) ^ 2 = 256 := by norm_num
  unfold absence_exhaust_payload_hex
  rw [String.length_append, String.length_append, String.length_append,
    String.length_append]
  rw [pyHexUpper_length (by omega) (by norm_num) (by omega)]
  rw [pyHexUpper_length (by omega) (by norm_num) (by omega)]
  rfl

theorem set_absence_exhaust_frames {self : OrconRamsesRFCommand} {s : ℤ} {fr : List String}
    (h : self.set_absence_exhaust_fan_speed s = .ok fr) :
    ∃ p, p.length = 46 ∧ fr = [msg2411 self.remote self.wtw p] := by
  unfold set_absence_exhaust_fan_speed at h
  split at h
  · cases h
  · rename_i hc
    cases h
    have hs := not_not.mp hc
    exact ⟨_, absence_exhaust_payload_hex_length hs.1 hs.2, rfl⟩

theorem boost_payload_hex_length {s : ℤ} (h0 : 0 ≤ s) (h100 : s ≤ 100) :
    (boost_payload_hex s).length = 46 := by
  have h256 : (16:ℤ) ^ 2 = 256 := by norm_num
  unfold boost_payload_hex
  rw [String.length_append, String.length_append, String.length_append,
    String.length_append]
  rw [pyHexUpper_length (by omega) (by norm_num) (by omega)]
  rw [pyHexUpper_length (by omega) (by norm_num) (by omega)]
  rfl

theorem set_boost_frames {self : OrconRamsesRFCommand} {s : ℤ} {fr : List String}
    (h : self.set_boost_mode_speed s = .ok fr) :
    ∃ p, p.length = 46 ∧ fr = [msg2411 self.remote self.wtw p] := by
  unfold set_boost_mode_speed at h
  split at h
  · cases h
  · rename_i hc
    cases h
    have hs := not_not.mp hc
    exact ⟨_, boost_payload_hex_length hs.1 hs.2, rfl⟩

theorem set_filter_frames {self : OrconRamsesRFCommand} {d : ℤ} {fr : List String}
    (h : self.set_filter_replacement_time d = .ok fr) :
    ∃ p, p.length = 46 ∧ fr = [msg2411 self.remote self.wtw p] := by
  unfold set_filter_replacement_time at h
  split_ifs at h <;> cases h <;> exact ⟨_, by rfl, rfl⟩

theorem sensor_payload_hex_length {s : ℤ} (h0 : 0 ≤ s) (h15 : s ≤ 15) :
    (sensor_payload_hex s).length = 46 := by
  have h256 : (16:ℤ) ^ 2 = 256 := by norm_num
  unfold sensor_payload_hex
  rw [String.length_append, String.length_append, String.length_append,
    String.length_append]
  rw [pyHexUpper_length (by omega) (by norm_num) (by omega)]
  rw [pyHexUpper_length (by omega) (by norm_num) (by omega)]
  rfl

theorem set_sensor_frames {self : OrconRamsesRFCommand} {s : ℤ} {fr : List String}
    (h : self.set_sensor_sensitivity s = .ok fr) :
    ∃ p, p.length = 46 ∧ fr = [msg2411 self.remote self.wtw p] := by
  unfold set_sensor_sensitivity at h
  split at h
  · cases h
  · rename_i hc
    cases h
    have hs := not_not.mp hc
    exact ⟨_, sensor_payload_hex_length hs.1 hs.2, rfl⟩

theorem set_humidity_frames {self : OrconRamsesRFCommand} {m : ℤ} {fr : List String}
    (h : self.set_humidity_scenario m = .ok fr) :
    ∃ p, p.length = 46 ∧ fr = [msg2411 self.remote self.wtw p] := by
  unfold set_humidity_scenario at h
  split_ifs at h <;> cases h <;> exact ⟨_, by rfl, rfl⟩

theorem runtime_payload_hex_length {m : ℤ} (h15 : 15 ≤ m) (h60 : m ≤ 60) :
    (runtime_payload_hex m).length = 46 := by
  have h256 : (16:ℤ) ^ 2 = 256 := by norm_num
  unfold runtime_payload_hex
  rw [String.length_append, String.length_append, String.length_append,
    String.length_append]
  rw [pyHexUpper_length (by omega) (by norm_num) (by omega)]
  rw [pyHexUpper_length (by omega) (by norm_num) (by omega)]
  rfl

theorem set_runtime_frames {self : OrconRamsesRFCommand} {m : ℤ} {fr : List String}
    (h : self.set_humidity_scenario_runtime m = .ok fr) :
    ∃ p, p.length = 46 ∧ fr = [msg2411 self.remote self.wtw p] := by
  unfold set_humidity_scenario_runtime at h
  split at h
  · cases h
  · rename_i hc
    cases h
    have hs := not_not.mp hc
    exact ⟨_, runtime_payload_hex_length hs.1 hs.2, rfl⟩

theorem comfort_payload_hex_length {t : ℚ} (h0 : 0 ≤ t) (h30 : t ≤ 30) :
    (comfort_payload_hex t).length = 46 := by
  have hprod : (0:ℚ) ≤ t * hundred := by
    rw [hundred_eq]; positivity
  have hfl_nonneg : 0 ≤ fl (t * hundred) := fl_nonneg hprod
  have hfl_le : fl (t * hundred) ≤ 2 * (t * hundred) := fl_le_two_mul hprod
  have htr0 : 0 ≤ pyTrunc (fl (t * hundred)) := pyTrunc_nonneg hfl_nonneg
  have htr_le : ((pyTrunc (fl (t * hundred)) : ℚ)) ≤ 6000 := by
    calc ((pyTrunc (fl (t * hundred)) : ℚ)) ≤ fl (t * hundred) := pyTrunc_le hfl_nonneg
    _ ≤ 2 * (t * hundred) := hfl_le
    _ ≤ 2 * (30 * 100) := by rw [hundred_eq]; nlinarith
    _ = 6000 := by norm_num
  have htr : pyTrunc (fl (t * hundred)) < 16 ^ 4 := by
    have h1 : pyTrunc (fl (t * hundred)) ≤ 6000 := by exact_mod_cast htr_le
    have h2 : (16:ℤ) ^ 4 = 65536 := by norm_num
    omega
  unfold comfort_payload_hex
  rw [String.length_append, String.length_append]
  rw [pyHexUpper_length htr0 (by norm_num) htr]
  rfl

theorem set_comfort_frames {self : OrconRamsesRFCommand} {t : ℚ} {fr : List String}
    (h : self.set_comfort_temperature t = .ok fr) :
    ∃ p, p.length = 46 ∧ fr = [msg2411 self.remote self.wtw p] := by
  unfold set_comfort_temperature at h
  split at h
  · cases h
  · rename_i hc
    cases h
    have hs := not_not.mp hc
    exact ⟨_, comfort_payload_hex_length hs.1 hs.2, rfl⟩

theorem cooling_payload_hex_length {t : ℤ} (h0 : 0 ≤ t) (h30 : t ≤ 30) :
    (cooling_payload_hex t).length = 46 := by
  have h256 : (16:ℤ) ^ 2 = 256 := by norm_num
  unfold cooling_payload_hex
  rw [String.length_append, String.length_append, String.length_append,
    String.length_append]
  rw [pyHexUpper_length (by omega) (by norm_num) (by omega)]
  rw [pyHexUpper_length (by omega) (by norm_num) (by omega)]
  rfl

theorem set_cooling_frames {self : OrconRamsesRFCommand} {t : ℤ} {fr : List String}
    (h : self.set_cooling_activation_temp t = .ok fr) :
    ∃ p, p.length = 46 ∧ fr = [msg2411 self.remote self.wtw p] := by
  unfold set_cooling_activation_temp at h
  split at h
  · cases h
  · rename_i hc
    cases h
    have hs := not_not.mp hc
    exact ⟨_, cooling_payload_hex_length hs.1 hs.2, rfl⟩

theorem min_bypass_payload_hex_length {s : ℤ} (h0 : 0 ≤ s) (h100 : s ≤ 100) :
    (min_bypass_payload_hex s).length = 46 := by
  have h65536 : (16:ℤ) ^ 4 = 65536 := by norm_num
  unfold min_bypass_payload_hex
  rw [String.length_append, String.length_append]
  rw [pyHexUpper_length (by omega) (by norm_num) (by omega)]
  rfl

theorem set_min_bypass_frames {self : OrconRamsesRFCommand} {s : ℤ} {fr : List String}
    (h : self.set_min_fan_speed_during_bypass s = .ok fr) :
    ∃ p, p.length = 46 ∧ fr = [msg2411 self.remote self.wtw p] := by
  unfold set_min_fan_speed_during_bypass at h
  split at h
  · cases h
  · rename_i hc
    cases h
    have hs := not_not.mp hc
    exact ⟨_, min_bypass_payload_hex_length hs.1 hs.2, rfl⟩

theorem set_bypass_reg_frames {self : OrconRamsesRFCommand} {s : ℤ} {fr : List String}
    (h : self.set_bypass_fan_speed_regulation s = .ok fr) :
    ∃ p, p.length = 46 ∧ fr = [msg2411 self.remote self.wtw p] := by
  unfold set_bypass_fan_speed_regulation at h
  split_ifs at h <;> cases h <;> exact ⟨_, by rfl, rfl⟩

theorem set_bypass_setting_frames {self : OrconRamsesRFCommand} {s : ℤ} {fr : List String}
    (h : self.set_bypass_fan_speed_setting s = .ok fr) :
    ∃ p, p.length = 46 ∧ fr = [msg2411 self.remote self.wtw p] := by
  unfold set_bypass_fan_speed_setting at h
  split_ifs at h <;> cases h <;> exact ⟨_, by rfl, rfl⟩

end OrconRamsesRFCommand

/-! ### Claim theorems -/

/-- C10: the constructor stores `capacity_in_m3_per_hour = 0` without any
validation, and then every call to `set_fan_speed` — whatever the level
string and flow argument — fails with `ZeroDivisionError` from the
flow-to-percentage division, not with a documented `ValueError`. -/
theorem claim_C10 : ∀ (remote wtw level_name : String) (m3 : ℤ),
    (OrconRamsesRFCommand.mk remote wtw 0)._calculate_percentage_from_m3_per_hour m3 =
      .error .zeroDivisionError ∧
    (OrconRamsesRFCommand.mk remote wtw 0).set_fan_speed level_name m3 =
      .error .zeroDivisionError := by
  intro remote wtw level_name m3
  constructor
  · rfl
  · rfl

/-- C9: dispatching any public call through `invoke` leaves the engine
object unchanged, and repeating the same call on the returned state
yields the identical result: every setter is a pure, deterministic
function of its arguments and the constructor-fixed fields. -/
theorem claim_C9 : ∀ (self : OrconRamsesRFCommand) (c : ApiCall),
    (invoke self c).2 = self ∧
    (invoke ((invoke self c).2) c).1 = (invoke self c).1 := by
  intro self c
  cases c <;> exact ⟨rfl, rfl⟩

/-- C3 (amended): the engine computes the fan-speed percentage as
Python's `int((flowRate / capacity) * 100)` evaluated in binary64
double precision; with capacity 400 and flow 104 this yields 26 and the
encoded speed byte `0x34` (payload matching the captured frame), but it
does not equal `floor(flowRate / capacity × 100)` for every input. -/
theorem claim_C3 :
    (OrconRamsesRFCommand.mk "37:111111" "32:222222" 400)._calculate_percentage_from_m3_per_hour
        104 = .ok 26 ∧
    pyHexUpper (26 * 2) 2 = "34" ∧
    OrconRamsesRFCommand.fan_speed_payload_hex 3 26 =
      "00003F000F0000003400000000000000A0000000010032" := by
  refine ⟨of_decide_eq_true (by with_unfolding_all rfl), by decide, by decide⟩

/-- C3 counterexample: with capacity 1000 and flow 290 the engine
computes percentage 28, while `floor(flowRate / capacity × 100)` is 29 —
the double product `0.29 * 100` rounds to just below 29. -/
theorem claim_C3_counterexample :
    (OrconRamsesRFCommand.mk "37:111111" "32:222222" 1000)._calculate_percentage_from_m3_per_hour
        290 = .ok 28 ∧
    ⌊(290 : ℚ) / 1000 * 100⌋ = 29 ∧ (28 : ℤ) ≠ 29 := by
  refine ⟨of_decide_eq_true (by with_unfolding_all rfl), ?_, by decide⟩
  have h : (290 : ℚ) / 1000 * 100 = 29 := by norm_num
  rw [h]
  exact Int.floor_intCast 29

/-- C4 (amended): `set_comfort_temperature` accepts exactly 0.0..30.0 °C
(any value outside raises `ValueError`), and encodes
`int(temperature * 100)` — the truncated binary64 product — as a 4-digit
uppercase hex field.  The double nearest 20.1 encodes 2010 → `07DA`, the
exact value 30.0 encodes 3000 → `0BB8`, and the double nearest 30.1 is
rejected; because the product is rounded before truncation, the encoded
value can exceed the exact truncation of `value × 100` by one. -/
theorem claim_C4 :
    (∀ (self : OrconRamsesRFCommand) (t : ℚ), 0 ≤ t → t ≤ 30 →
      self.set_comfort_temperature t =
        .ok [msg2411 self.remote self.wtw (OrconRamsesRFCommand.comfort_payload_hex t)]) ∧
    (∀ (self : OrconRamsesRFCommand) (t : ℚ), ¬(0 ≤ t ∧ t ≤ 30) →
      self.set_comfort_temperature t =
        .error (.valueError "Comfort temperature must be between 0.0 and 30.0°C.")) ∧
    (OrconRamsesRFCommand.mk "37:111111" "32:222222" 400).set_comfort_temperature
        (fl (mkRat 201 10)) =
      .ok ["W --- 37:111111 32:222222 --:------ 2411 023 0000750092000007DA0000000000000BB8000000010001"] ∧
    (OrconRamsesRFCommand.mk "37:111111" "32:222222" 400).set_comfort_temperature
        (mkRat 30 1) =
      .ok ["W --- 37:111111 32:222222 --:------ 2411 023 000075009200000BB80000000000000BB8000000010001"] ∧
    (OrconRamsesRFCommand.mk "37:111111" "32:222222" 400).set_comfort_temperature
        (fl (mkRat 301 10)) =
      .error (.valueError "Comfort temperature must be between 0.0 and 30.0°C.") := by
  refine ⟨?_, ?_, ?_, ?_, ?_⟩
  · intro self t h0 h30
    unfold OrconRamsesRFCommand.set_comfort_temperature
    rw [if_neg (not_not.mpr ⟨h0, h30⟩)]
  · intro self t hc
    unfold OrconRamsesRFCommand.set_comfort_temperature
    rw [if_pos hc]
  · exact of_decide_eq_true (by with_unfolding_all rfl)
  · exact of_decide_eq_true (by with_unfolding_all rfl)
  · exact of_decide_eq_true (by with_unfolding_all rfl)

/-- Witness for C4 at the concrete in-range input 20.0 °C. -/
theorem claim_C4_witness :
    (OrconRamsesRFCommand.mk "37:111111" "32:222222" 400).set_comfort_temperature (mkRat 20 1) =
      .ok [msg2411 "37:111111" "32:222222"
        (OrconRamsesRFCommand.comfort_payload_hex (mkRat 20 1))] := by
  have h0 : (0 : ℚ) ≤ mkRat 20 1 := by rw [mkRat_int]; norm_num
  have h30 : (mkRat 20 1 : ℚ) ≤ 30 := by rw [mkRat_int]; norm_num
  exact claim_C4.1 (OrconRamsesRFCommand.mk "37:111111" "32:222222" 400) (mkRat 20 1) h0 h30

/-- C4 counterexample: at the double nearest 28.99 the code emits the
hex field `0B53` (2899), but truncation toward zero of `value × 100` is
2898, which would render as `0B52`: “scales by 100 with truncation
toward zero” fails at this input. -/
theorem claim_C4_counterexample :
    (OrconRamsesRFCommand.mk "37:111111" "32:222222" 400).set_comfort_temperature
        (fl (mkRat 2899 100)) =
      .ok ["W --- 37:111111 32:222222 --:------ 2411 023 000075009200000B530000000000000BB8000000010001"] ∧
    pyTrunc (fl (mkRat 2899 100) * hundred) = 2898 ∧
    pyHexUpper 2898 4 = "0B52" ∧ ("0B52" : String) ≠ "0B53" := by
  refine ⟨of_decide_eq_true (by with_unfolding_all rfl),
    of_decide_eq_true (by with_unfolding_all rfl), by decide, by decide⟩

/-- Helper: `_fan_speed_payload` succeeds on in-range arguments. -/
theorem fan_payload_ok_of (self : OrconRamsesRFCommand) {param speed : ℤ}
    (hp3 : 3 ≤ param) (hp8 : param ≤ 8) (hs1 : 1 ≤ speed) (hs100 : speed ≤ 100) :
    self._fan_speed_payload param speed =
      .ok (msg2411 self.remote self.wtw (OrconRamsesRFCommand.fan_speed_payload_hex param speed)) := by
  unfold OrconRamsesRFCommand._fan_speed_payload
  rw [if_neg (not_not.mpr ⟨hp3, hp8⟩), if_neg (not_not.mpr ⟨hs1, hs100⟩)]

/-- C1: whenever the computed percentage lies in the domain 1..100, a
level whose lower-casing is `low` / `medium` / `high` yields exactly the
two `2411` frames of the pair (3,4) / (5,6) / (7,8), supply first, each
with a 46-hex-character (23-byte) payload; any other level raises
`ValueError` (the `InvalidLevel` failure). -/
theorem claim_C1 : ∀ (self : OrconRamsesRFCommand) (level_name : String) (m3 p : ℤ),
    self._calculate_percentage_from_m3_per_hour m3 = .ok p → 1 ≤ p → p ≤ 100 →
    ((pyLower level_name = "low" →
        self.set_fan_speed level_name m3 =
          .ok [msg2411 self.remote self.wtw (OrconRamsesRFCommand.fan_speed_payload_hex 3 p),
               msg2411 self.remote self.wtw (OrconRamsesRFCommand.fan_speed_payload_hex 4 p)]) ∧
     (pyLower level_name = "medium" →
        self.set_fan_speed level_name m3 =
          .ok [msg2411 self.remote self.wtw (OrconRamsesRFCommand.fan_speed_payload_hex 5 p),
               msg2411 self.remote self.wtw (OrconRamsesRFCommand.fan_speed_payload_hex 6 p)]) ∧
     (pyLower level_name = "high" →
        self.set_fan_speed level_name m3 =
          .ok [msg2411 self.remote self.wtw (OrconRamsesRFCommand.fan_speed_payload_hex 7 p),
               msg2411 self.remote self.wtw (OrconRamsesRFCommand.fan_speed_payload_hex 8 p)]) ∧
     (pyLower level_name ≠ "low" → pyLower level_name ≠ "medium" → pyLower level_name ≠ "high" →
        self.set_fan_speed level_name m3 =
          .error (.valueError "level_name must be \x27low/medium/high.")) ∧
     (∀ k : ℤ, 3 ≤ k → k ≤ 8 →
        (OrconRamsesRFCommand.fan_speed_payload_hex k p).length = 46)) := by
  intro self level_name m3 p hp h1 h100
  have hlow : ∀ a b : ℤ, 3 ≤ a → a ≤ 8 → 3 ≤ b → b ≤ 8 →
      (do
        let msgA ← self._fan_speed_payload a p
        let msgB ← self._fan_speed_payload b p
        return [msgA, msgB] : Except PyErr (List String)) =
        .ok [msg2411 self.remote self.wtw (OrconRamsesRFCommand.fan_speed_payload_hex a p),
             msg2411 self.remote self.wtw (OrconRamsesRFCommand.fan_speed_payload_hex b p)] := by
    intro a b ha3 ha8 hb3 hb8
    rw [fan_payload_ok_of self ha3 ha8 h1 h100, fan_payload_ok_of self hb3 hb8 h1 h100]
    rfl
  refine ⟨?_, ?_, ?_, ?_, ?_⟩
  · intro hl
    unfold OrconRamsesRFCommand.set_fan_speed
    rw [hp]
    simp only [bind, Except.bind, hl, reduceIte]
    exact hlow 3 4 (by norm_num) (by norm_num) (by norm_num) (by norm_num)
  · intro hl
    unfold OrconRamsesRFCommand.set_fan_speed
    rw [hp]
    simp only [bind, Except.bind, hl, reduceIte]
    exact hlow 5 6 (by norm_num) (by norm_num) (by norm_num) (by norm_num)
  · intro hl
    unfold OrconRamsesRFCommand.set_fan_speed
    rw [hp]
    simp only [bind, Except.bind, hl, reduceIte]
    exact hlow 7 8 (by norm_num) (by norm_num) (by norm_num) (by norm_num)
  · intro hl hm hh
    unfold OrconRamsesRFCommand.set_fan_speed
    rw [hp]
    simp only [bind, Except.bind]
    rw [if_neg hl, if_neg hm, if_neg hh]
  · intro k hk3 hk8
    exact OrconRamsesRFCommand.fan_speed_payload_hex_length hk3 hk8 h1 h100

/-- Witness for C1: capacity 400, level `"LOW"`, flow 104 m³/h,
computed percentage 26. -/
theorem claim_C1_witness :
    (OrconRamsesRFCommand.mk "37:111111" "32:222222" 400).set_fan_speed "LOW" 104 =
      .ok [msg2411 "37:111111" "32:222222" (OrconRamsesRFCommand.fan_speed_payload_hex 3 26),
           msg2411 "37:111111" "32:222222" (OrconRamsesRFCommand.fan_speed_payload_hex 4 26)] := by
  have hcalc : (OrconRamsesRFCommand.mk "37:111111" "32:222222"
      400)._calculate_percentage_from_m3_per_hour 104 = .ok 26 :=
    of_decide_eq_true (by with_unfolding_all rfl)
  exact (claim_C1 (OrconRamsesRFCommand.mk "37:111111" "32:222222" 400) "LOW" 104 26 hcalc
    (by norm_num) (by norm_num)).1 (by decide)

/-- C5: when the computed percentage is 0, `set_fan_speed` raises the
out-of-range `ValueError` of parameters 3..8 (whose domain starts at 1)
for each of the three levels, while the absence-mode setters
(parameters 1 and 2, domain starting at 0) accept the same percentage 0. -/
theorem claim_C5 : ∀ (self : OrconRamsesRFCommand) (level_name : String) (m3 : ℤ),
    self._calculate_percentage_from_m3_per_hour m3 = .ok 0 →
    ((pyLower level_name = "low" ∨ pyLower level_name = "medium" ∨
        pyLower level_name = "high") →
      self.set_fan_speed level_name m3 =
        .error (.valueError "Speed percentage must be between 1 and 100.")) ∧
    self.set_absence_supply_fan_speed 0 =
      .ok [msg2411 self.remote self.wtw (OrconRamsesRFCommand.absence_supply_payload_hex 0)] ∧
    self.set_absence_exhaust_fan_speed 0 =
      .ok [msg2411 self.remote self.wtw (OrconRamsesRFCommand.absence_exhaust_payload_hex 0)] := by
  intro self level_name m3 hp
  have hfail : ∀ a : ℤ, 3 ≤ a → a ≤ 8 → self._fan_speed_payload a 0 =
      .error (.valueError "Speed percentage must be between 1 and 100.") := by
    intro a ha3 ha8
    unfold OrconRamsesRFCommand._fan_speed_payload
    rw [if_neg (not_not.mpr ⟨ha3, ha8⟩), if_pos (by omega)]
  have key : ∀ a b : ℤ, 3 ≤ a → a ≤ 8 →
      (do
        let msgA ← self._fan_speed_payload a 0
        let msgB ← self._fan_speed_payload b 0
        return [msgA, msgB] : Except PyErr (List String)) =
        .error (.valueError "Speed percentage must be between 1 and 100.") := by
    intro a b ha3 ha8
    rw [hfail a ha3 ha8]
    rfl
  refine ⟨?_, rfl, rfl⟩
  intro hl
  unfold OrconRamsesRFCommand.set_fan_speed
  rw [hp]
  rcases hl with hl | hl | hl <;> rw [hl]
  · exact key 3 4 (by norm_num) (by norm_num)
  · exact key 5 6 (by norm_num) (by norm_num)
  · exact key 7 8 (by norm_num) (by norm_num)

/-- Witness for C5: capacity 400, flow 0 m³/h gives percentage 0; level
`"low"` is rejected while the absence setters accept 0. -/
theorem claim_C5_witness :
    (OrconRamsesRFCommand.mk "37:111111" "32:222222" 400).set_fan_speed "low" 0 =
      .error (.valueError "Speed percentage must be between 1 and 100.") := by
  have hcalc : (OrconRamsesRFCommand.mk "37:111111" "32:222222"
      400)._calculate_percentage_from_m3_per_hour 0 = .ok 0 :=
    of_decide_eq_true (by with_unfolding_all rfl)
  exact (claim_C5 (OrconRamsesRFCommand.mk "37:111111" "32:222222" 400) "low" 0 hcalc).1
    (Or.inl (by decide))

/-- C7: each discrete-domain parameter — filter days {90,120,150,180},
humidity scenario {0,1}, bypass regulation {3,4}, bypass setting {0,1} —
maps each allowed input to one fixed payload, distinct inputs to
distinct payloads, and rejects every other input with a synchronous
`ValueError`, producing no frame and never clamping or defaulting. -/
theorem claim_C7 : ∀ self : OrconRamsesRFCommand,
    (self.set_filter_replacement_time 90 =
        .ok [msg2411 self.remote self.wtw "00003100100000005A00000000000007080000001E002C"] ∧
      self.set_filter_replacement_time 120 =
        .ok [msg2411 self.remote self.wtw "00003100100000007800000000000007080000001E002C"] ∧
      self.set_filter_replacement_time 150 =
        .ok [msg2411 self.remote self.wtw "00003100100000009600000000000007080000001E002C"] ∧
      self.set_filter_replacement_time 180 =
        .ok [msg2411 self.remote self.wtw "0000310010000000B400000000000007080000001E002C"] ∧
      (∀ d : ℤ, d ≠ 90 → d ≠ 120 → d ≠ 150 → d ≠ 180 →
        self.set_filter_replacement_time d =
          .error (.valueError "Days must be one of the following: 90, 120, 150, 180.")) ∧
      ("00003100100000005A00000000000007080000001E002C" : String) ≠
        "00003100100000007800000000000007080000001E002C" ∧
      ("00003100100000005A00000000000007080000001E002C" : String) ≠
        "00003100100000009600000000000007080000001E002C" ∧
      ("00003100100000005A00000000000007080000001E002C" : String) ≠
        "0000310010000000B400000000000007080000001E002C" ∧
      ("00003100100000007800000000000007080000001E002C" : String) ≠
        "00003100100000009600000000000007080000001E002C" ∧
      ("00003100100000007800000000000007080000001E002C" : String) ≠
        "0000310010000000B400000000000007080000001E002C" ∧
      ("00003100100000009600000000000007080000001E002C" : String) ≠
        "0000310010000000B400000000000007080000001E002C") ∧
    (self.set_humidity_scenario 0 =
        .ok [msg2411 self.remote self.wtw "00004E0000000000000000000000000001000000010000"] ∧
      self.set_humidity_scenario 1 =
        .ok [msg2411 self.remote self.wtw "00004E0000000000010000000000000001000000010000"] ∧
      (∀ m : ℤ, m ≠ 0 → m ≠ 1 →
        self.set_humidity_scenario m =
          .error (.valueError "Humidity scenario mode must be 0 (Midden) or 1 (Hoog).")) ∧
      ("00004E0000000000000000000000000001000000010000" : String) ≠
        "00004E0000000000010000000000000001000000010000") ∧
    (self.set_bypass_fan_speed_regulation 3 =
        .ok [msg2411 self.remote self.wtw "0000E70000000000030000000300000005000000010000"] ∧
      self.set_bypass_fan_speed_regulation 4 =
        .ok [msg2411 self.remote self.wtw "0000E70000000000040000000300000005000000010000"] ∧
      (∀ s : ℤ, s ≠ 3 → s ≠ 4 →
        self.set_bypass_fan_speed_regulation s =
          .error (.valueError "Regulation setting for parameter 17 must be 3 (medium) or 4 (high).")) ∧
      ("0000E70000000000030000000300000005000000010000" : String) ≠
        "0000E70000000000040000000300000005000000010000") ∧
    (self.set_bypass_fan_speed_setting 0 =
        .ok [msg2411 self.remote self.wtw "0000E80000000000000000000000000001000000010000"] ∧
      self.set_bypass_fan_speed_setting 1 =
        .ok [msg2411 self.remote self.wtw "0000E80000000000010000000000000001000000010000"] ∧
      (∀ s : ℤ, s ≠ 0 → s ≠ 1 →
        self.set_bypass_fan_speed_setting s =
          .error (.valueError "Bypass fan speed setting for parameter 18 must be 0 or 1.")) ∧
      ("0000E80000000000000000000000000001000000010000" : String) ≠
        "0000E80000000000010000000000000001000000010000") := by
  intro self
  refine ⟨⟨rfl, rfl, rfl, rfl, ?_, by decide, by decide, by decide, by decide, by decide,
      by decide⟩,
    ⟨rfl, rfl, ?_, by decide⟩, ⟨rfl, rfl, ?_, by decide⟩, ⟨rfl, rfl, ?_, by decide⟩⟩
  · intro d h90 h120 h150 h180
    unfold OrconRamsesRFCommand.set_filter_replacement_time
    rw [if_neg h90, if_neg h120, if_neg h150, if_neg h180]
  · intro m h0 h1
    unfold OrconRamsesRFCommand.set_humidity_scenario
    rw [if_pos (by tauto)]
  · intro s h3 h4
    unfold OrconRamsesRFCommand.set_bypass_fan_speed_regulation
    rw [if_pos (by tauto)]
  · intro s h0 h1
    unfold OrconRamsesRFCommand.set_bypass_fan_speed_setting
    rw [if_pos (by tauto)]

/-- Witness for C7: the adjacent value 121 days is rejected. -/
theorem claim_C7_witness :
    (OrconRamsesRFCommand.mk "37:111111" "32:222222" 400).set_filter_replacement_time 121 =
      .error (.valueError "Days must be one of the following: 90, 120, 150, 180.") :=
  (claim_C7 (OrconRamsesRFCommand.mk "37:111111" "32:222222" 400)).1.2.2.2.2.1 121
    (by decide) (by decide) (by decide) (by decide)

/-- Helper: a `2411` frame with a 46-character payload is well formed. -/
theorem is2411Frame_mk {r w p : String} (h : p.length = 46) :
    is2411Frame r w (msg2411 r w p) := by
  refine ⟨p, h, rfl, ?_⟩
  rw [h]
  decide

/-- C2: every frame any setter emits is well formed: `2411` frames carry
exactly 46 hex characters (23 bytes) of payload and their hard-coded
`023` byte-count field equals `len(payload)/2` zero-padded to 3 digits;
`22F1` and `22F7` frames carry 6 hex characters and the field `003`. -/
theorem claim_C2 : ∀ self : OrconRamsesRFCommand,
    (∀ (lvl : String) (m3 : ℤ) (fr : List String), self.set_fan_speed lvl m3 = .ok fr →
      ∀ msg ∈ fr, is2411Frame self.remote self.wtw msg) ∧
    (∀ (s : ℤ) (fr : List String), self.set_absence_supply_fan_speed s = .ok fr →
      ∀ msg ∈ fr, is2411Frame self.remote self.wtw msg) ∧
    (∀ (s : ℤ) (fr : List String), self.set_absence_exhaust_fan_speed s = .ok fr →
      ∀ msg ∈ fr, is2411Frame self.remote self.wtw msg) ∧
    (∀ (s : ℤ) (fr : List String), self.set_boost_mode_speed s = .ok fr →
      ∀ msg ∈ fr, is2411Frame self.remote self.wtw msg) ∧
    (∀ (d : ℤ) (fr : List String), self.set_filter_replacement_time d = .ok fr →
      ∀ msg ∈ fr, is2411Frame self.remote self.wtw msg) ∧
    (∀ (m : ℤ) (fr : List String), self.set_humidity_scenario m = .ok fr →
      ∀ msg ∈ fr, is2411Frame self.remote self.wtw msg) ∧
    (∀ (s : ℤ) (fr : List String), self.set_sensor_sensitivity s = .ok fr →
      ∀ msg ∈ fr, is2411Frame self.remote self.wtw msg) ∧
    (∀ (m : ℤ) (fr : List String), self.set_humidity_scenario_runtime m = .ok fr →
      ∀ msg ∈ fr, is2411Frame self.remote self.wtw msg) ∧
    (∀ (t : ℚ) (fr : List String), self.set_comfort_temperature t = .ok fr →
      ∀ msg ∈ fr, is2411Frame self.remote self.wtw msg) ∧
    (∀ (t : ℤ) (fr : List String), self.set_cooling_activation_temp t = .ok fr →
      ∀ msg ∈ fr, is2411Frame self.remote self.wtw msg) ∧
    (∀ (s : ℤ) (fr : List String), self.set_min_fan_speed_during_bypass s = .ok fr →
      ∀ msg ∈ fr, is2411Frame self.remote self.wtw msg) ∧
    (∀ (s : ℤ) (fr : List String), self.set_bypass_fan_speed_regulation s = .ok fr →
      ∀ msg ∈ fr, is2411Frame self.remote self.wtw msg) ∧
    (∀ (s : ℤ) (fr : List String), self.set_bypass_fan_speed_setting s = .ok fr →
      ∀ msg ∈ fr, is2411Frame self.remote self.wtw msg) ∧
    (∀ msg ∈ self.turn_fan_off, isModeFrame self.remote self.wtw msg) ∧
    (∀ msg ∈ self.set_to_low_mode, isModeFrame self.remote self.wtw msg) ∧
    (∀ msg ∈ self.set_to_medium_mode, isModeFrame self.remote self.wtw msg) ∧
    (∀ msg ∈ self.set_to_high_mode, isModeFrame self.remote self.wtw msg) ∧
    (∀ msg ∈ self.set_to_auto_mode, isModeFrame self.remote self.wtw msg) ∧
    (∀ msg ∈ self.set_to_auto2_mode, isModeFrame self.remote self.wtw msg) ∧
    (∀ msg ∈ self.set_to_boost_mode, isModeFrame self.remote self.wtw msg) ∧
    (∀ msg ∈ self.disable_mode, isModeFrame self.remote self.wtw msg) ∧
    (∀ msg ∈ self.open_bypass, isBypassFrame self.remote self.wtw msg) ∧
    (∀ msg ∈ self.close_bypass, isBypassFrame self.remote self.wtw msg) ∧
    (∀ msg ∈ self.automatic_bypass, isBypassFrame self.remote self.wtw msg) := by
  intro self
  refine ⟨?_, ?_, ?_, ?_, ?_, ?_, ?_, ?_, ?_, ?_, ?_, ?_, ?_,
    ?_, ?_, ?_, ?_, ?_, ?_, ?_, ?_, ?_, ?_, ?_⟩
  · intro lvl m3 fr h msg hm
    obtain ⟨p1, p2, h1, h2, rfl⟩ := OrconRamsesRFCommand.set_fan_speed_frames h
    simp only [List.mem_cons, List.mem_singleton, List.not_mem_nil, or_false] at hm
    rcases hm with rfl | rfl
    · exact is2411Frame_mk h1
    · exact is2411Frame_mk h2
  · intro s fr h msg hm
    obtain ⟨p, hlen, rfl⟩ := OrconRamsesRFCommand.set_absence_supply_frames h
    rw [List.mem_singleton] at hm
    subst hm
    exact is2411Frame_mk hlen
  · intro s fr h msg hm
    obtain ⟨p, hlen, rfl⟩ := OrconRamsesRFCommand.set_absence_exhaust_frames h
    rw [List.mem_singleton] at hm
    subst hm
    exact is2411Frame_mk hlen
  · intro s fr h msg hm
    obtain ⟨p, hlen, rfl⟩ := OrconRamsesRFCommand.set_boost_frames h
    rw [List.mem_singleton] at hm
    subst hm
    exact is2411Frame_mk hlen
  · intro d fr h msg hm
    obtain ⟨p, hlen, rfl⟩ := OrconRamsesRFCommand.set_filter_frames h
    rw [List.mem_singleton] at hm
    subst hm
    exact is2411Frame_mk hlen
  · intro m fr h msg hm
    obtain ⟨p, hlen, rfl⟩ := OrconRamsesRFCommand.set_humidity_frames h
    rw [List.mem_singleton] at hm
    subst hm
    exact is2411Frame_mk hlen
  · intro s fr h msg hm
    obtain ⟨p, hlen, rfl⟩ := OrconRamsesRFCommand.set_sensor_frames h
    rw [List.mem_singleton] at hm
    subst hm
    exact is2411Frame_mk hlen
  · intro m fr h msg hm
    obtain ⟨p, hlen, rfl⟩ := OrconRamsesRFCommand.set_runtime_frames h
    rw [List.mem_singleton] at hm
    subst hm
    exact is2411Frame_mk hlen
  · intro t fr h msg hm
    obtain ⟨p, hlen, rfl⟩ := OrconRamsesRFCommand.set_comfort_frames h
    rw [List.mem_singleton] at hm
    subst hm
    exact is2411Frame_mk hlen
  · intro t fr h msg hm
    obtain ⟨p, hlen, rfl⟩ := OrconRamsesRFCommand.set_cooling_frames h
    rw [List.mem_singleton] at hm
    subst hm
    exact is2411Frame_mk hlen
  · intro s fr h msg hm
    obtain ⟨p, hlen, rfl⟩ := OrconRamsesRFCommand.set_min_bypass_frames h
    rw [List.mem_singleton] at hm
    subst hm
    exact is2411Frame_mk hlen
  · intro s fr h msg hm
    obtain ⟨p, hlen, rfl⟩ := OrconRamsesRFCommand.set_bypass_reg_frames h
    rw [List.mem_singleton] at hm
    subst hm
    exact is2411Frame_mk hlen
  · intro s fr h msg hm
    obtain ⟨p, hlen, rfl⟩ := OrconRamsesRFCommand.set_bypass_setting_frames h
    rw [List.mem_singleton] at hm
    subst hm
    exact is2411Frame_mk hlen
  · intro msg hm
    rw [OrconRamsesRFCommand.turn_fan_off, List.mem_singleton] at hm
    subst hm
    exact ⟨"000007", rfl, rfl, by decide⟩
  · intro msg hm
    rw [OrconRamsesRFCommand.set_to_low_mode, List.mem_singleton] at hm
    subst hm
    exact ⟨"000104", rfl, rfl, by decide⟩
  · intro msg hm
    rw [OrconRamsesRFCommand.set_to_medium_mode, List.mem_singleton] at hm
    subst hm
    exact ⟨"000204", rfl, rfl, by decide⟩
  · intro msg hm
    rw [OrconRamsesRFCommand.set_to_high_mode, List.mem_singleton] at hm
    subst hm
    exact ⟨"000304", rfl, rfl, by decide⟩
  · intro msg hm
    rw [OrconRamsesRFCommand.set_to_auto_mode, List.mem_singleton] at hm
    subst hm
    exact ⟨"000407", rfl, rfl, by decide⟩
  · intro msg hm
    rw [OrconRamsesRFCommand.set_to_auto2_mode, List.mem_singleton] at hm
    subst hm
    exact ⟨"000507", rfl, rfl, by decide⟩
  · intro msg hm
    rw [OrconRamsesRFCommand.set_to_boost_mode, List.mem_singleton] at hm
    subst hm
    exact ⟨"000607", rfl, rfl, by decide⟩
  · intro msg hm
    rw [OrconRamsesRFCommand.disable_mode, List.mem_singleton] at hm
    subst hm
    exact ⟨"000707", rfl, rfl, by decide⟩
  · intro msg hm
    rw [OrconRamsesRFCommand.open_bypass, List.mem_singleton] at hm
    subst hm
    exact ⟨"00C8EF", rfl, rfl, by decide⟩
  · intro msg hm
    rw [OrconRamsesRFCommand.close_bypass, List.mem_singleton] at hm
    subst hm
    exact ⟨"0000EF", rfl, rfl, by decide⟩
  · intro msg hm
    rw [OrconRamsesRFCommand.automatic_bypass, List.mem_singleton] at hm
    subst hm
    exact ⟨"00FFEF", rfl, rfl, by decide⟩

/-- Witness for C2: the frame emitted for absence supply speed 0 is a
well-formed `2411` frame. -/
theorem claim_C2_witness :
    is2411Frame "37:111111" "32:222222"
      (msg2411 "37:111111" "32:222222" (OrconRamsesRFCommand.absence_supply_payload_hex 0)) := by
  have h := (claim_C2 (OrconRamsesRFCommand.mk "37:111111" "32:222222" 400)).2.1 0
    [msg2411 "37:111111" "32:222222" (OrconRamsesRFCommand.absence_supply_payload_hex 0)]
    rfl
  exact h _ (List.mem_singleton_self _)

/-- C6: the low-mode frame for source `37:111111` and destination
`32:222222` is exactly the documented string; every frame built by any
of the three templates contains the filler token `--:------` verbatim;
mode frames start with verb `I` and carry code `22F1`, while parameter
and bypass frames start with verb `W` and carry codes `2411` / `22F7`;
and every setter emits its frames through these templates. -/
theorem claim_C6 :
    (OrconRamsesRFCommand.mk "37:111111" "32:222222" 400).set_to_low_mode =
      ["I --- 37:111111 32:222222 --:------ 22F1 003 000104"] ∧
    (∀ r w p : String, ∃ a b, msgMode r w p = a ++ (" --:------ " ++ b)) ∧
    (∀ r w p : String, ∃ a b, msg2411 r w p = a ++ (" --:------ " ++ b)) ∧
    (∀ r w p : String, ∃ a b, msg22F7 r w p = a ++ (" --:------ " ++ b)) ∧
    (∀ r w p : String, ∃ t, msgMode r w p = "I --- " ++ t) ∧
    (∀ r w p : String, ∃ t, msg2411 r w p = "W --- " ++ t) ∧
    (∀ r w p : String, ∃ t, msg22F7 r w p = "W --- " ++ t) ∧
    (∀ r w p : String, ∃ a, msgMode r w p = a ++ ("22F1 003 " ++ p)) ∧
    (∀ r w p : String, ∃ a, msg2411 r w p = a ++ ("2411 023 " ++ p)) ∧
    (∀ r w p : String, ∃ a, msg22F7 r w p = a ++ ("22F7 003 " ++ p)) ∧
    (∀ self : OrconRamsesRFCommand,
      self.turn_fan_off = [msgMode self.remote self.wtw "000007"] ∧
      self.set_to_low_mode = [msgMode self.remote self.wtw "000104"] ∧
      self.set_to_medium_mode = [msgMode self.remote self.wtw "000204"] ∧
      self.set_to_high_mode = [msgMode self.remote self.wtw "000304"] ∧
      self.set_to_auto_mode = [msgMode self.remote self.wtw "000407"] ∧
      self.set_to_auto2_mode = [msgMode self.remote self.wtw "000507"] ∧
      self.set_to_boost_mode = [msgMode self.remote self.wtw "000607"] ∧
      self.disable_mode = [msgMode self.remote self.wtw "000707"] ∧
      self.open_bypass = [msg22F7 self.remote self.wtw "00C8EF"] ∧
      self.close_bypass = [msg22F7 self.remote self.wtw "0000EF"] ∧
      self.automatic_bypass = [msg22F7 self.remote self.wtw "00FFEF"]) ∧
    (∀ (self : OrconRamsesRFCommand) (lvl : String) (m3 : ℤ) (fr : List String),
      self.set_fan_speed lvl m3 = .ok fr →
      ∃ p1 p2, fr = [msg2411 self.remote self.wtw p1, msg2411 self.remote self.wtw p2]) ∧
    (∀ (self : OrconRamsesRFCommand) (s : ℤ) (fr : List String),
      self.set_absence_supply_fan_speed s = .ok fr ∨
      self.set_absence_exhaust_fan_speed s = .ok fr ∨
      self.set_boost_mode_speed s = .ok fr ∨
      self.set_filter_replacement_time s = .ok fr ∨
      self.set_humidity_scenario s = .ok fr ∨
      self.set_sensor_sensitivity s = .ok fr ∨
      self.set_humidity_scenario_runtime s = .ok fr ∨
      self.set_cooling_activation_temp s = .ok fr ∨
      self.set_min_fan_speed_during_bypass s = .ok fr ∨
      self.set_bypass_fan_speed_regulation s = .ok fr ∨
      self.set_bypass_fan_speed_setting s = .ok fr →
      ∃ p, fr = [msg2411 self.remote self.wtw p]) ∧
    (∀ (self : OrconRamsesRFCommand) (t : ℚ) (fr : List String),
      self.set_comfort_temperature t = .ok fr →
      ∃ p, fr = [msg2411 self.remote self.wtw p]) := by
  refine ⟨by decide, ?_, ?_, ?_, ?_, ?_, ?_, ?_, ?_, ?_, ?_, ?_, ?_, ?_⟩
  · intro r w p
    exact ⟨"I --- " ++ r ++ " " ++ w, "22F1 003 " ++ p,
      String.append_assoc ("I --- " ++ r ++ " " ++ w) " --:------ " ("22F1 003 " ++ p)⟩
  · intro r w p
    exact ⟨"W --- " ++ r ++ " " ++ w, "2411 023 " ++ p,
      String.append_assoc ("W --- " ++ r ++ " " ++ w) " --:------ " ("2411 023 " ++ p)⟩
  · intro r w p
    exact ⟨"W --- " ++ r ++ " " ++ w, "22F7 003 " ++ p,
      String.append_assoc ("W --- " ++ r ++ " " ++ w) " --:------ " ("22F7 003 " ++ p)⟩
  · intro r w p
    refine ⟨r ++ (" " ++ (w ++ (" --:------ " ++ ("22F1 003 " ++ p)))), ?_⟩
    simp only [msgMode, String.append_assoc]
  · intro r w p
    refine ⟨r ++ (" " ++ (w ++ (" --:------ " ++ ("2411 023 " ++ p)))), ?_⟩
    simp only [msg2411, String.append_assoc]
  · intro r w p
    refine ⟨r ++ (" " ++ (w ++ (" --:------ " ++ ("22F7 003 " ++ p)))), ?_⟩
    simp only [msg22F7, String.append_assoc]
  · intro r w p
    exact ⟨"I --- " ++ r ++ " " ++ w ++ " --:------ ", rfl⟩
  · intro r w p
    exact ⟨"W --- " ++ r ++ " " ++ w ++ " --:------ ", rfl⟩
  · intro r w p
    exact ⟨"W --- " ++ r ++ " " ++ w ++ " --:------ ", rfl⟩
  · intro self
    exact ⟨rfl, rfl, rfl, rfl, rfl, rfl, rfl, rfl, rfl, rfl, rfl⟩
  · intro self lvl m3 fr h
    obtain ⟨p1, p2, _, _, rfl⟩ := OrconRamsesRFCommand.set_fan_speed_frames h
    exact ⟨p1, p2, rfl⟩
  · intro self s fr h
    rcases h with h | h | h | h | h | h | h | h | h | h | h
    · obtain ⟨p, _, rfl⟩ := OrconRamsesRFCommand.set_absence_supply_frames h
      exact ⟨p, rfl⟩
    · obtain ⟨p, _, rfl⟩ := OrconRamsesRFCommand.set_absence_exhaust_frames h
      exact ⟨p, rfl⟩
    · obtain ⟨p, _, rfl⟩ := OrconRamsesRFCommand.set_boost_frames h
      exact ⟨p, rfl⟩
    · obtain ⟨p, _, rfl⟩ := OrconRamsesRFCommand.set_filter_frames h
      exact ⟨p, rfl⟩
    · obtain ⟨p, _, rfl⟩ := OrconRamsesRFCommand.set_humidity_frames h
      exact ⟨p, rfl⟩
    · obtain ⟨p, _, rfl⟩ := OrconRamsesRFCommand.set_sensor_frames h
      exact ⟨p, rfl⟩
    · obtain ⟨p, _, rfl⟩ := OrconRamsesRFCommand.set_runtime_frames h
      exact ⟨p, rfl⟩
    · obtain ⟨p, _, rfl⟩ := OrconRamsesRFCommand.set_cooling_frames h
      exact ⟨p, rfl⟩
    · obtain ⟨p, _, rfl⟩ := OrconRamsesRFCommand.set_min_bypass_frames h
      exact ⟨p, rfl⟩
    · obtain ⟨p, _, rfl⟩ := OrconRamsesRFCommand.set_bypass_reg_frames h
      exact ⟨p, rfl⟩
    · obtain ⟨p, _, rfl⟩ := OrconRamsesRFCommand.set_bypass_setting_frames h
      exact ⟨p, rfl⟩
  · intro self t fr h
    obtain ⟨p, _, rfl⟩ := OrconRamsesRFCommand.set_comfort_frames h
    exact ⟨p, rfl⟩

/-- Witness for C6: the comfort-temperature frame at 0 °C has the
`2411` template shape. -/
theorem claim_C6_witness :
    ∃ p, [msg2411 "37:111111" "32:222222" (OrconRamsesRFCommand.comfort_payload_hex 0)] =
      [msg2411 "37:111111" "32:222222" p] := by
  have hok : (OrconRamsesRFCommand.mk "37:111111" "32:222222" 400).set_comfort_temperature 0 =
      .ok [msg2411 "37:111111" "32:222222" (OrconRamsesRFCommand.comfort_payload_hex 0)] := by
    unfold OrconRamsesRFCommand.set_comfort_temperature
    rw [if_neg (by norm_num)]
  exact claim_C6.2.2.2.2.2.2.2.2.2.2.2.2.2
    (OrconRamsesRFCommand.mk "37:111111" "32:222222" 400) 0
    [msg2411 "37:111111" "32:222222" (OrconRamsesRFCommand.comfort_payload_hex 0)] hok

/-- C8: payloads of parameters 3..8 embed the identifier byte
`param + 0x3C`; the identifiers of parameters 9–18 are independently
hard-coded table values (9→`0x95`, 12→`0x52`, 13→`0x54`, 14→`0x75`,
15→`0xA1`, 16→the literal `0079` fragment, 17→`0xE7`, 18→`0xE8`),
and none of them equals `param + 0x3C`. -/
theorem claim_C8 :
    (∀ param speed : ℤ, 3 ≤ param → param ≤ 8 →
      ∃ rest, OrconRamsesRFCommand.fan_speed_payload_hex param speed =
        "0000" ++ (pyHexUpper (param + 0x3C) 2 ++ rest)) ∧
    (∀ s : ℤ, ∃ rest, OrconRamsesRFCommand.boost_payload_hex s = "0000" ++ ("95" ++ rest)) ∧
    (0x95 : ℤ) ≠ 9 + 0x3C ∧
    (∀ s : ℤ, ∃ rest, OrconRamsesRFCommand.sensor_payload_hex s = "0000" ++ ("52" ++ rest)) ∧
    (0x52 : ℤ) ≠ 12 + 0x3C ∧
    (∀ m : ℤ, ∃ rest, OrconRamsesRFCommand.runtime_payload_hex m = "0000" ++ ("54" ++ rest)) ∧
    (0x54 : ℤ) ≠ 13 + 0x3C ∧
    (∀ t : ℚ, ∃ rest, OrconRamsesRFCommand.comfort_payload_hex t = "0000" ++ ("75" ++ rest)) ∧
    (0x75 : ℤ) ≠ 14 + 0x3C ∧
    (∀ t : ℤ, ∃ rest, OrconRamsesRFCommand.cooling_payload_hex t = "0000" ++ ("A1" ++ rest)) ∧
    (0xA1 : ℤ) ≠ 15 + 0x3C ∧
    (∀ s : ℤ, ∃ rest, OrconRamsesRFCommand.min_bypass_payload_hex s = "0000" ++ ("79" ++ rest)) ∧
    (0x79 : ℤ) ≠ 16 + 0x3C ∧
    (∀ (self : OrconRamsesRFCommand) (s : ℤ) (fr : List String),
      self.set_bypass_fan_speed_regulation s = .ok fr →
      ∃ rest, fr = [msg2411 self.remote self.wtw ("0000" ++ ("E7" ++ rest))]) ∧
    (0xE7 : ℤ) ≠ 17 + 0x3C ∧
    (∀ (self : OrconRamsesRFCommand) (s : ℤ) (fr : List String),
      self.set_bypass_fan_speed_setting s = .ok fr →
      ∃ rest, fr = [msg2411 self.remote self.wtw ("0000" ++ ("E8" ++ rest))]) ∧
    (0xE8 : ℤ) ≠ 18 + 0x3C := by
  refine ⟨?_, ?_, by decide, ?_, by decide, ?_, by decide, ?_, by decide, ?_, by decide,
    ?_, by decide, ?_, by decide, ?_, by decide⟩
  · intro param speed _ _
    refine ⟨"000F000000" ++ (pyHexUpper (speed * 2) 2 ++
      OrconRamsesRFCommand.param_suffix param), ?_⟩
    simp only [OrconRamsesRFCommand.fan_speed_payload_hex, String.append_assoc]
  · intro s
    refine ⟨"000F000000" ++ (pyHexUpper (s * 2) 2 ++ "00000000000000C8000000010032"), ?_⟩
    simp only [OrconRamsesRFCommand.boost_payload_hex, String.append_assoc]
    rfl
  · intro s
    refine ⟨"0001000000" ++ (pyHexUpper (s * 12) 2 ++ "00000000000000FA000000010032"), ?_⟩
    simp only [OrconRamsesRFCommand.sensor_payload_hex, String.append_assoc]
    rfl
  · intro m
    refine ⟨"0000000000" ++ (pyHexUpper m 2 ++ "0000000F0000003C00000001002A"), ?_⟩
    simp only [OrconRamsesRFCommand.runtime_payload_hex, String.append_assoc]
    rfl
  · intro t
    refine ⟨"00920000" ++ (pyHexUpper (pyTrunc (fl (t * hundred))) 4 ++
      "0000000000000BB8000000010001"), ?_⟩
    simp only [OrconRamsesRFCommand.comfort_payload_hex, String.append_assoc]
    rfl
  · intro t
    refine ⟨"000F000000" ++ (pyHexUpper (t * 2) 2 ++ "000000000000003C000000010001"), ?_⟩
    simp only [OrconRamsesRFCommand.cooling_payload_hex, String.append_assoc]
    rfl
  · intro s
    refine ⟨"00110000" ++ (pyHexUpper (s * 10) 4 ++ "00000000000003E8000000010032"), ?_⟩
    simp only [OrconRamsesRFCommand.min_bypass_payload_hex, String.append_assoc]
    rfl
  · intro self s fr h
    unfold OrconRamsesRFCommand.set_bypass_fan_speed_regulation at h
    split_ifs at h <;> cases h
    · exact ⟨"0000000000030000000300000005000000010000", rfl⟩
    · exact ⟨"0000000000040000000300000005000000010000", rfl⟩
  · intro self s fr h
    unfold OrconRamsesRFCommand.set_bypass_fan_speed_setting at h
    split_ifs at h <;> cases h
    · exact ⟨"0000000000000000000000000001000000010000", rfl⟩
    · exact ⟨"0000000000010000000000000001000000010000", rfl⟩

/-- Witness for C8: the payload for parameter 3 at speed 1 starts with
the identifier byte `0x3F = 3 + 0x3C`. -/
theorem claim_C8_witness :
    ∃ rest, OrconRamsesRFCommand.fan_speed_payload_hex 3 1 =
      "0000" ++ (pyHexUpper (3 + 0x3C) 2 ++ rest) :=
  claim_C8.1 3 1 (by norm_num) (by norm_num)
